import Mathlib

/-!
Shallow embedding of the AMMINA dashboard client (frontend/static/js/ui.js,
the API gateway module and the login manager module) and proofs about its
result-rendering pipeline, form utilities, upload/query lifecycles and
rename round-trips.

JavaScript conventions captured here:
* absent / `undefined` / `null`-able object fields become `Option` values;
* JS truthiness of a string is "non-empty", of a number "non-zero";
* template interpolation of `undefined` yields the literal text "undefined";
* a `try { ... } catch { ... }` whose handler does not rethrow becomes a
  total function from an `Except`-valued body.
-/

/-- JS truthiness of a possibly-absent string (`undefined`, `null` and `""`
are falsy). -/
def truthyStr (s : Option String) : Bool :=
  match s with
  | some s => s ≠ ""
  | none => false

/-- JS template interpolation of a possibly-absent string: `undefined`
interpolates as the literal text "undefined". -/
def jsStr (s : Option String) : String :=
  match s with
  | some s => s
  | none => "undefined"

/-- JS `String.prototype.trim`: strip leading and trailing whitespace.
(Defined over the character list so that it is kernel-executable.) -/
def jsTrim (s : String) : String :=
  (((s.toList.dropWhile Char.isWhitespace).reverse.dropWhile
      Char.isWhitespace).reverse).asString

/-- JS truthiness of a possibly-absent number (`undefined` and `0` are
falsy); used for option fields such as `minLength`. -/
def truthyNat (n : Option Nat) : Bool :=
  match n with
  | some n => n ≠ 0
  | none => false

/-- A JSON cell value as it occurs in a query result's data table rows. -/
inductive JsonValue where
  | jnull
  | jnum (n : Int)
  | jstr (s : String)
  | jbool (b : Bool)
deriving DecidableEq, Repr

/-- A data-table row: a JS object mapping column names to cell values.
A column absent from the list is `undefined` in JS. -/
def Row := List (String × JsonValue)

/-- JS property access `row[col]`: the first binding for the key, or
`undefined` (`none`) when the key is absent. -/
def jsLookup (row : Row) (col : String) : Option JsonValue :=
  (List.find? (fun p => p.1 == col) row).map (fun p => p.2)

/-- One entry of a query result's `visualizations` field
(`{title, type, url|html}`). -/
structure Visualization where
  title : String
  type : Option String
  url : Option String
  html : Option String
deriving DecidableEq, Repr

/-- One entry of a query result's `data_tables` field
(`{title, columns, data}`). -/
structure DataTable where
  title : String
  columns : Option (List String)
  data : Option (List Row)

/-- A query result as returned by `POST /query` (`ui.js` renders exactly
these fields). -/
structure QueryResult where
  query : String
  timestamp : String
  datasets_used : List String
  response : Option String
  visualizations : Option (List Visualization)
  data_tables : Option (List DataTable)

/-- A dataset as held in the client's local cache (`this.datasets`); only
the fields the rename claims touch are modelled. -/
structure Dataset where
  id : String
  name : String
deriving DecidableEq, Repr

namespace LoginManager

/-- The punctuation set of the password rule `/[!@#$%^&*(),.?":{}|<>]/`. -/
def specialChars : List Char :=
  ['!', '@', '#', '$', '%', '^', '&', '*', '(', ')', ',', '.', '?',
   '\"', ':', '\x7b', '\x7d', '|', '<', '>']

/-- `/[A-Z]/.test password` -/
def hasUppercase (password : String) : Bool :=
  password.toList.any (fun c => 'A' ≤ c && c ≤ 'Z')

/-- `/[a-z]/.test password` -/
def hasLowercase (password : String) : Bool :=
  password.toList.any (fun c => 'a' ≤ c && c ≤ 'z')

/-- `/\d/.test password` -/
def hasNumber (password : String) : Bool :=
  password.toList.any (fun c => '0' ≤ c && c ≤ '9')

/-- `/[!@#$%^&*(),.?":{}|<>]/.test password` -/
def hasSpecial (password : String) : Bool :=
  password.toList.any (fun c => c ∈ specialChars)

/-- The `{valid, message}` record returned by `validatePassword`. -/
structure PasswordCheck where
  valid : Bool
  message : String
deriving DecidableEq, Repr

/-- `LoginManager.validatePassword`: computes the five rules, then returns
the message of the first failing rule in the fixed order
length / uppercase / lowercase / number / special. -/
def validatePassword (password : String) : PasswordCheck :=
  let minLength := password.length ≥ 8
  if ¬ minLength then
    ⟨false, "Password must be at least 8 characters long"⟩
  else if ¬ hasUppercase password then
    ⟨false, "Password must contain at least one uppercase letter"⟩
  else if ¬ hasLowercase password then
    ⟨false, "Password must contain at least one lowercase letter"⟩
  else if ¬ hasNumber password then
    ⟨false, "Password must contain at least one number"⟩
  else if ¬ hasSpecial password then
    ⟨false, "Password must contain at least one special character (!@#$%^&*)"⟩
  else
    ⟨true, "Password is strong"⟩

end LoginManager

namespace API

/-- The parsed JSON body of a REST response, as read by `API.request`:
`data.auth_error` (truthiness of the authentication-error flag) and
`data.error` (the server-supplied message, possibly absent). -/
structure Body where
  auth_error : Bool
  error : Option String
deriving DecidableEq, Repr

/-- What `fetch` delivered: either a settled HTTP response with a parsed
JSON body, or a transport-level rejection (the `TypeError` whose message
mentions `fetch`). -/
inductive FetchResult where
  | response (status : Nat) (body : Body)
  | networkFailure
deriving DecidableEq, Repr

/-- The outcome of `API.request`: the parsed body on success, or one of the
three distinct failure throw sites. -/
inductive RequestResult where
  | ok (body : Body)
  | authenticationRequired
  | requestFailed (msg : String)
  | networkError (msg : String)
deriving DecidableEq, Repr

/-- `response.ok` of the Fetch API: status in the 2xx range. -/
def responseOk (status : Nat) : Bool :=
  200 ≤ status && status < 300

/-- `API.request`: returns the parsed body when `response.ok`; on a 401
whose body has a truthy `auth_error` it invokes `window.authManager`'s
`showAuthModal` hook (when present) and throws "Authentication required";
on any other non-2xx it throws the server's message (or a generic HTTP
status message); a transport failure throws the network-error message.
The second component records whether the auth-modal hook was invoked. -/
def request (hasAuthManager : Bool) (fr : FetchResult) :
    RequestResult × Bool :=
  match fr with
  | .networkFailure =>
      (.networkError "Network error. Please check your connection and try again.",
       false)
  | .response status body =>
      if responseOk status then
        (.ok body, false)
      else if status == 401 && body.auth_error then
        (.authenticationRequired, hasAuthManager)
      else
        (.requestFailed
          (if truthyStr body.error then jsStr body.error
           else "HTTP error! status: " ++ Nat.repr status),
         false)

end API

namespace UI

/-- A character admitted by the regex class `[^\s@]`. -/
def emailOkChar (c : Char) : Bool :=
  !c.isWhitespace && c ≠ '@'

/-- Split a character list at its first occurrence of `sep`; `none` when
`sep` does not occur. -/
def splitFirst (sep : Char) : List Char → Option (List Char × List Char)
  | [] => none
  | c :: t =>
      if c = sep then some ([], t)
      else (splitFirst sep t).map (fun p => (c :: p.1, p.2))

/-- The part of `/^[^\s@]+@[^\s@]+\.[^\s@]+$/` after the `@`: every
character in `[^\s@]`, with a `.` that is neither the first nor the last
character. -/
def emailRestOk (cs : List Char) : Bool :=
  cs.all emailOkChar &&
    match cs with
    | [] => false
    | _ :: t => '.' ∈ t.dropLast

/-- `UI.isValidEmail`: the test of `/^[^\s@]+@[^\s@]+\.[^\s@]+$/`.  The
first regex class excludes `@`, so the matched `@` is the string's first
`@`; the remainder may contain no further `@`. -/
def isValidEmail (email : String) : Bool :=
  match splitFirst '@' email.toList with
  | none => false
  | some (user, rest) => !user.isEmpty && user.all emailOkChar && emailRestOk rest

/-- The result a custom validator returns in JS: `true`, or a falsy value,
or a message string. -/
inductive CustomResult where
  | ctrue
  | cfalse
  | cstr (s : String)

/-- The recognized per-field options of a `validateForm` rules entry.
`minLength`/`maxLength` are absent-or-zero falsy numbers; `custom` is an
optional validator function. -/
structure FieldRules where
  required : Bool
  minLength : Option Nat
  maxLength : Option Nat
  email : Bool
  custom : Option (String → CustomResult)

/-- A form, as the validator sees it: field name to current value; a field
name with no control in the form is skipped by the loop. -/
def Form := List (String × String)

/-- `form.querySelector('[name=...]')`: first matching field's value. -/
def findField (form : Form) (name : String) : Option String :=
  (List.find? (fun f => f.1 == name) form).map (fun f => f.2)

/-- The error message a single field ends up with after the five checks of
the `validateForm` loop body.  Each failing check overwrites
`errors[fieldName]`, so the last failing check's message wins; `none`
means every check passed. -/
def validateField (value : String) (r : FieldRules) : Option String :=
  let e1 : Option String :=
    if r.required && jsTrim value == "" then some "This field is required"
    else none
  let e2 :=
    if truthyNat r.minLength && value.length < r.minLength.getD 0 then
      some ("Minimum length is " ++ Nat.repr (r.minLength.getD 0) ++ " characters")
    else e1
  let e3 :=
    if truthyNat r.maxLength && value.length > r.maxLength.getD 0 then
      some ("Maximum length is " ++ Nat.repr (r.maxLength.getD 0) ++ " characters")
    else e2
  let e4 :=
    if r.email && value ≠ "" && !isValidEmail value then
      some "Please enter a valid email address"
    else e3
  match r.custom with
  | none => e4
  | some f =>
      match f value with
      | .ctrue => e4
      | .cfalse => some "Invalid value"
      | .cstr s => some (if s == "" then "Invalid value" else s)

/-- What `UI.validateForm` returns: the bare boolean `false` when the form
does not exist, otherwise the `{isValid, errors}` record. -/
inductive FormValidationResult where
  | boolResult (b : Bool)
  | record (isValid : Bool) (errors : List (String × String))

/-- `UI.validateForm`: `document.getElementById` miss returns the bare
`false` immediately; otherwise every rule's field is validated and each
failing field is annotated with its error.  The second component is the
list of `showFieldError` annotations performed. -/
def validateForm (form : Option Form) (rules : List (String × FieldRules)) :
    FormValidationResult × List (String × String) :=
  match form with
  | none => (.boolResult false, [])
  | some f =>
      let errors := rules.filterMap (fun nr =>
        match findField f nr.1 with
        | none => none
        | some v => (validateField v nr.2).map (fun msg => (nr.1, msg)))
      (.record errors.isEmpty errors, errors)

end UI

namespace AMINA

/-- The rendered form of one `data_tables` entry: the guard's placeholder
paragraph, or a table with its header cells and one list of cell texts per
record. -/
inductive TableHtml where
  | noData (msg : String)
  | table (header : List String) (rows : List (List String))
deriving DecidableEq, Repr

/-- The cell text interpolated into `<td>`:
`value === null || value === undefined ? '' : value`. -/
def displayValue (v : Option JsonValue) : String :=
  match v with
  | none => ""
  | some .jnull => ""
  | some (.jnum n) => toString n
  | some (.jstr s) => s
  | some (.jbool b) => if b then "true" else "false"

/-- One rendered cell of `renderDataTable`'s body loop. -/
def renderCell (row : Row) (col : String) : String :=
  displayValue (jsLookup row col)

/-- `AMINAApp.renderDataTable`: placeholder when `!table.data`,
`!table.columns` or `table.data.length === 0`; otherwise a header row from
`columns` and one body row per record. -/
def renderDataTable (t : DataTable) : TableHtml :=
  match t.data, t.columns with
  | none, _ => .noData "No data to display"
  | _, none => .noData "No data to display"
  | some data, some cols =>
      if data.length == 0 then .noData "No data to display"
      else .table cols (data.map (fun row => cols.map (renderCell row)))

/-- `formatResponseText`: falsy text renders as the empty string, line
breaks become `<br>`. -/
def formatResponseText (text : String) : String :=
  if text == "" then ""
  else text.replace "\n" "<br>"

/-- One `result-item` block emitted by `AMINAApp.renderQueryResults`, in
emission order.  A visualization block carries its `<img>`'s `src` and
`alt` attributes. -/
inductive Block where
  | header (query timestamp : String) (datasets : List String)
  | response (html : String)
  | visualization (title imgSrc imgAlt : String)
  | dataTable (title : String) (html : TableHtml)
deriving DecidableEq, Repr

/-- `AMINAApp.renderQueryResults`: header block, then the response block
when the response text is truthy and non-blank after trimming, then one
visualization block per entry (an unconditional `<img>` whose `src` is the
entry's `url` and whose `alt` is its `title`), then one data-table block
per entry. -/
def renderQueryResults (result : QueryResult) : List Block :=
  [Block.header result.query result.timestamp result.datasets_used]
  ++ (match result.response with
      | some s => if s ≠ "" && jsTrim s ≠ "" then [Block.response (formatResponseText s)] else []
      | none => [])
  ++ (match result.visualizations with
      | some vizs =>
          if vizs.length > 0 then
            vizs.map (fun viz => Block.visualization viz.title (jsStr viz.url) viz.title)
          else []
      | none => [])
  ++ (match result.data_tables with
      | some ts =>
          if ts.length > 0 then
            ts.map (fun t => Block.dataTable t.title (renderDataTable t))
          else []
      | none => [])

/-- Is this block a visualization block? -/
def isVizBlock : Block → Bool
  | .visualization _ _ _ => true
  | _ => false

end AMINA

namespace PharmaQuery

/-- What `PharmaQueryApp.renderVisualization` leaves in the visualization
container: an `<img>` (src, alt), verbatim embedded markup, or the
"No visualization content available" placeholder. -/
inductive VizContent where
  | image (src alt : String)
  | rawHtml (h : String)
  | noContent
deriving DecidableEq, Repr

/-- `PharmaQueryApp.renderVisualization` (deferred DOM pass): an image only
when `viz.type === 'chart' && viz.url`; else embedded markup when
`viz.html` is truthy; else the no-content placeholder.  (The surrounding
`try`/`catch` never fires in this model: none of the three branches
throws.) -/
def renderVisualization (viz : Visualization) : VizContent :=
  if viz.type == some "chart" && truthyStr viz.url then
    .image (jsStr viz.url) viz.title
  else if truthyStr viz.html then
    .rawHtml (jsStr viz.html)
  else
    .noContent

/-- The freshly generated container identifier of one visualization block:
`` `viz-${Date.now()}-${index}` ``. -/
def vizId (now index : Nat) : String :=
  "viz-" ++ Nat.repr now ++ "-" ++ Nat.repr index

/-- The container identifiers one `PharmaQueryApp.renderQueryResults` call
pushes into `vizIds`: `Date.now()` is sampled once per loop iteration
(`now i` is the clock value observed at index `i`). -/
def vizIdsFor (now : Nat → Nat) (vizs : List Visualization) : List String :=
  (List.range vizs.length).map (fun i => vizId (now i) i)

end PharmaQuery

namespace AMINA

/-- The controller state touched by the query lifecycle: the dataset cache,
the cached last successful result (`this.currentQuery`) and the visibility
of the `queryResults` container. -/
structure AppState where
  datasets : List Dataset
  currentQuery : Option QueryResult
  resultsVisible : Bool

/-- How the awaited `API.executeQuery` call came back: a declared success
carrying the result, a declared failure (`response.success` false, whose
`error` is rethrown), or a transport error thrown by the gateway. -/
inductive QueryOutcome where
  | success (result : QueryResult)
  | declaredFailure (error : String)
  | transportError (msg : String)

/-- Is this outcome one of the two failure shapes? -/
def QueryOutcome.isFailure : QueryOutcome → Bool
  | .success _ => false
  | .declaredFailure _ => true
  | .transportError _ => true

/-- `AMINAApp.executeQuery`: aborts with a warning toast before any network
call when the trimmed query text is empty or no datasets are available; on
declared success caches the result, renders it and shows the results
container; on either failure shape only toasts the error and hides the
results container.  Returns the new state and the toasts shown. -/
def executeQuery (st : AppState) (rawQuery : String) (outcome : QueryOutcome) :
    AppState × List String :=
  let queryText := jsTrim rawQuery
  if queryText == "" then
    (st, ["Please enter a query"])
  else if st.datasets.length == 0 then
    (st, ["No datasets available for querying"])
  else
    match outcome with
    | .success result =>
        ({ st with currentQuery := some result, resultsVisible := true },
         ["Query executed successfully"])
    | .declaredFailure e =>
        ({ st with resultsVisible := false }, ["Query failed: " ++ e])
    | .transportError m =>
        ({ st with resultsVisible := false }, ["Query failed: " ++ m])

/-- How one file's awaited upload call came back. -/
inductive UploadResponse where
  | success
  | declaredFailure (error : String)
  | transportError (msg : String)

/-- Per-file outcome as surfaced to the user by `uploadFile`'s toasts. -/
inductive UploadResult where
  | succeeded (file : String)
  | failed (file : String) (toast : String)
deriving DecidableEq, Repr

/-- The file a per-file outcome belongs to. -/
def UploadResult.file : UploadResult → String
  | .succeeded f => f
  | .failed f _ => f

/-- The `try` block of `AMINAApp.uploadFile`: a declared failure is
rethrown (`throw new Error(response.error)`), a transport error propagates
from the gateway; a declared success completes normally. -/
def uploadFileTry (file : String) (resp : UploadResponse) :
    Except String String :=
  match resp with
  | .success => .ok ("Successfully uploaded " ++ file)
  | .declaredFailure e => .error e
  | .transportError m => .error m

/-- `AMINAApp.uploadFile`: the `catch` handler toasts the failure and does
not rethrow, so the function never raises into its caller. -/
def uploadFile (file : String) (resp : UploadResponse) :
    Except String UploadResult :=
  match uploadFileTry file resp with
  | .ok _ => .ok (.succeeded file)
  | .error e => .ok (.failed file ("Failed to upload " ++ file ++ ": " ++ e))

/-- `AMINAApp.handleFileSelect`: `for (const file of files) await
this.uploadFile(file)` — strictly sequential, and an exception escaping
any iteration would abort the remaining ones (the `Except` bind). -/
def handleFileSelect (files : List String)
    (respOf : String → UploadResponse) : Except String (List UploadResult) :=
  files.mapM (fun f => uploadFile f (respOf f))

end AMINA

namespace Server

/-- Modelled from the spec: the server code behind
`PUT /admin/shared-datasets/{id}/rename` is not part of the repository
sources; spec section 6 gives it as "rename dataset … `{name}` →
`{success}`", mutating only the named dataset's `name` field. -/
def renameDataset (server : List Dataset) (datasetId newName : String) :
    List Dataset :=
  server.map (fun d => if d.id == datasetId then { d with name := newName } else d)

/-- Modelled from the spec: the server code behind
`GET /shared-datasets` (and its admin twin) is not part of the repository
sources; spec section 6 gives it as "`{success, datasets:[Dataset]}`",
the current dataset list. -/
def listDatasets (server : List Dataset) : List Dataset :=
  server

end Server

namespace AMINA

/-- `AMINAApp.renameDataset`: looks the dataset up in the local cache,
prompts (the user's entry is `promptInput`, `none` on cancel), and only
when the entry is truthy and differs from the current name issues the
rename request and reloads the dataset list wholesale.  A cache miss makes
the source read `dataset.name` of `undefined` — a thrown `TypeError`,
modelled as `none`.  Returns the new client cache, the new server state
and whether a rename request was issued. -/
def renameDataset (client server : List Dataset) (datasetId : String)
    (promptInput : Option String) :
    Option (List Dataset × List Dataset × Bool) :=
  match List.find? (fun d => d.id == datasetId) client with
  | none => none
  | some dataset =>
      match promptInput with
      | none => some (client, server, false)
      | some newName =>
          if newName ≠ "" && newName ≠ dataset.name then
            let server' := Server.renameDataset server datasetId newName
            some (Server.listDatasets server', server', true)
          else
            some (client, server, false)

/-- `AMINAApp.renameSharedDataset`: guarded no-ops for non-admin users, a
cache miss, a cancelled or blank prompt, and an entry equal to the current
name; otherwise issues the rename request with the trimmed entry and
reloads the dataset list wholesale. -/
def renameSharedDataset (isAdmin : Bool) (client server : List Dataset)
    (datasetId : String) (promptInput : Option String) :
    List Dataset × List Dataset × Bool :=
  if !isAdmin then (client, server, false)
  else
    match List.find? (fun d => d.id == datasetId) client with
    | none => (client, server, false)
    | some dataset =>
        match promptInput with
        | none => (client, server, false)
        | some newName =>
            if newName == "" || jsTrim newName == "" || newName == dataset.name then
              (client, server, false)
            else
              let server' := Server.renameDataset server datasetId (jsTrim newName)
              (Server.listDatasets server', server', true)

end AMINA

/-!
Decimal-representation facts used to settle identifier collision claims:
`Nat.repr` is injective and produces only digit characters, hence the
identifier template `viz-<now>-<index>` is injective in the pair
`(now, index)`.
-/

/-- The numeric value of a decimal digit character. -/
def digitVal (c : Char) : Nat := c.toNat - '0'.toNat

/-- Value of a most-significant-first digit string, started from `a`. -/
def digitsVal (a : Nat) (l : List Char) : Nat :=
  l.foldl (fun x c => x * 10 + digitVal c) a

theorem digitVal_digitChar (k : Nat) (hk : k < 10) :
    digitVal (Nat.digitChar k) = k := by
  revert hk
  revert k
  decide

theorem digitChar_isDigit (k : Nat) (hk : k < 10) :
    (Nat.digitChar k).isDigit := by
  revert hk
  revert k
  decide

theorem toDigitsCore_eq_append (fuel : Nat) :
    ∀ (n : Nat) (ds : List Char),
      Nat.toDigitsCore 10 fuel n ds = Nat.toDigitsCore 10 fuel n [] ++ ds := by
  induction fuel with
  | zero => intro n ds; simp [Nat.toDigitsCore]
  | succ fuel ih =>
      intro n ds
      simp only [Nat.toDigitsCore]
      by_cases h : n / 10 = 0
      · simp [h]
      · simp only [h, if_false]
        rw [ih (n / 10) (Nat.digitChar (n % 10) :: ds),
          ih (n / 10) [Nat.digitChar (n % 10)], List.append_assoc]
        simp

theorem digitsVal_toDigitsCore (fuel : Nat) :
    ∀ n, n < fuel → ∀ a,
      digitsVal a (Nat.toDigitsCore 10 fuel n []) =
        a * 10 ^ (Nat.toDigitsCore 10 fuel n []).length + n := by
  induction fuel with
  | zero => intro n hn; exact absurd hn (Nat.not_lt_zero n)
  | succ fuel ih =>
      intro n hn a
      simp only [Nat.toDigitsCore]
      by_cases h : n / 10 = 0
      · have h10 : n % 10 = n := by omega
        have h9 : n < 10 := by omega
        simp only [h, if_true]
        simp [digitsVal, h10, digitVal_digitChar n h9]
      · have hlt : n / 10 < fuel := by omega
        simp only [h, if_false]
        rw [toDigitsCore_eq_append fuel (n / 10) [Nat.digitChar (n % 10)]]
        have hdm : n / 10 * 10 + n % 10 = n := by omega
        calc digitsVal a (Nat.toDigitsCore 10 fuel (n / 10) [] ++ [Nat.digitChar (n % 10)])
            = digitsVal a (Nat.toDigitsCore 10 fuel (n / 10) []) * 10 +
                digitVal (Nat.digitChar (n % 10)) := by
              simp [digitsVal, List.foldl_append]
          _ = (a * 10 ^ (Nat.toDigitsCore 10 fuel (n / 10) []).length + n / 10) * 10
                + n % 10 := by
              rw [ih (n / 10) hlt a,
                digitVal_digitChar (n % 10) (Nat.mod_lt n (by norm_num))]
          _ = a * (10 ^ (Nat.toDigitsCore 10 fuel (n / 10) []).length * 10)
                + (n / 10 * 10 + n % 10) := by ring
          _ = a * 10 ^ ((Nat.toDigitsCore 10 fuel (n / 10) []).length + 1) + n := by
              rw [hdm, pow_succ]
          _ = a * 10 ^ (Nat.toDigitsCore 10 fuel (n / 10) [] ++
                [Nat.digitChar (n % 10)]).length + n := by simp

theorem digitsVal_toDigits (n : Nat) : digitsVal 0 (Nat.toDigits 10 n) = n := by
  have h := digitsVal_toDigitsCore (n + 1) n (Nat.lt_succ_self n) 0
  simpa [Nat.toDigits] using h

theorem string_eq_of_data {s t : String} (h : s.data = t.data) : s = t := by
  cases s; cases t; exact congrArg String.mk h

theorem natRepr_injective : Function.Injective Nat.repr := by
  intro m n h
  have hd : Nat.toDigits 10 m = Nat.toDigits 10 n := congrArg String.data h
  calc m = digitsVal 0 (Nat.toDigits 10 m) := (digitsVal_toDigits m).symm
    _ = digitsVal 0 (Nat.toDigits 10 n) := by rw [hd]
    _ = n := digitsVal_toDigits n

theorem toDigitsCore_digits (fuel : Nat) :
    ∀ (n : Nat) (ds : List Char), (∀ c ∈ ds, c.isDigit) →
      ∀ c ∈ Nat.toDigitsCore 10 fuel n ds, c.isDigit := by
  induction fuel with
  | zero => intro n ds hds c hc; exact hds c (by simpa [Nat.toDigitsCore] using hc)
  | succ fuel ih =>
      intro n ds hds c hc
      have hd : (Nat.digitChar (n % 10)).isDigit :=
        digitChar_isDigit (n % 10) (Nat.mod_lt n (by norm_num))
      have hds' : ∀ x ∈ Nat.digitChar (n % 10) :: ds, x.isDigit := by
        intro x hx
        rcases List.mem_cons.mp hx with hx | hx
        · exact hx ▸ hd
        · exact hds x hx
      simp only [Nat.toDigitsCore] at hc
      by_cases h : n / 10 = 0
      · rw [if_pos h] at hc
        exact hds' c hc
      · rw [if_neg h] at hc
        exact ih (n / 10) (Nat.digitChar (n % 10) :: ds) hds' c hc

theorem dash_not_mem_repr (n : Nat) : '-' ∉ (Nat.repr n).data := by
  intro h
  have hdig := toDigitsCore_digits (n + 1) n [] (by intro c hc; cases hc) '-' h
  exact absurd hdig (by decide)

theorem append_dash_inj :
    ∀ (l1 r1 l2 r2 : List Char), '-' ∉ l1 → '-' ∉ l2 →
      l1 ++ '-' :: r1 = l2 ++ '-' :: r2 → l1 = l2 ∧ r1 = r2 := by
  intro l1
  induction l1 with
  | nil =>
      intro r1 l2 r2 h1 h2 heq
      cases l2 with
      | nil => simpa using heq
      | cons b u =>
          simp only [List.nil_append, List.cons_append, List.cons.injEq] at heq
          exact absurd (List.mem_cons_self b u) (heq.1 ▸ h2)
  | cons a t ih =>
      intro r1 l2 r2 h1 h2 heq
      cases l2 with
      | nil =>
          simp only [List.cons_append, List.nil_append, List.cons.injEq] at heq
          exact absurd (heq.1 ▸ List.mem_cons_self a t) h1
      | cons b u =>
          simp only [List.cons_append, List.cons.injEq] at heq
          have h1' : '-' ∉ t := fun hm => h1 (List.mem_cons_of_mem a hm)
          have h2' : '-' ∉ u := fun hm => h2 (List.mem_cons_of_mem b hm)
          obtain ⟨hl, hr⟩ := ih r1 u r2 h1' h2' heq.2
          exact ⟨by rw [heq.1, hl], hr⟩

theorem vizId_data (t i : Nat) :
    (PharmaQuery.vizId t i).data =
      ['v', 'i', 'z', '-'] ++ ((Nat.repr t).data ++ '-' :: (Nat.repr i).data) := by
  simp [PharmaQuery.vizId, String.data_append]

theorem vizId_inj {t i u j : Nat}
    (h : PharmaQuery.vizId t i = PharmaQuery.vizId u j) : t = u ∧ i = j := by
  have hd := congrArg String.data h
  rw [vizId_data, vizId_data] at hd
  have hd2 := List.append_cancel_left hd
  obtain ⟨h1, h2⟩ :=
    append_dash_inj (Nat.repr t).data (Nat.repr i).data (Nat.repr u).data
      (Nat.repr j).data (dash_not_mem_repr t) (dash_not_mem_repr u) hd2
  exact ⟨natRepr_injective (string_eq_of_data h1),
    natRepr_injective (string_eq_of_data h2)⟩

/-! Concrete fixtures used by the claims below. -/

/-- The visualization entry `{title:"Chart A", url:"http://x/a.png"}` —
note it carries no `type` field. -/
def chartAViz : Visualization :=
  { title := "Chart A", type := none, url := some "http://x/a.png", html := none }

/-- A `QueryResult` whose `visualizations` is `[chartAViz]` and whose
`data_tables` is empty. -/
def chartAResult : QueryResult :=
  { query := "show chart", timestamp := "2024-01-01T00:00:00Z",
    datasets_used := ["sales"], response := none,
    visualizations := some [chartAViz], data_tables := some [] }

/-- The `data_tables` entry `{columns:["a","b"], data:[{a:1,b:null}]}`. -/
def c7Table : DataTable :=
  { title := "T", columns := some ["a", "b"],
    data := some [[("a", JsonValue.jnum 1), ("b", JsonValue.jnull)]] }

/-- C1 (counterexample): at the entry `{title:"Chart A",
url:"http://x/a.png"}` — which has no `type` field — the PharmaQuery
variant of the pipeline (`renderVisualization`, cited by the claim) does
not produce an image reference at all: `viz.type === 'chart'` fails, so
the container receives the no-content placeholder instead of an `<img>`
with alt text "Chart A". -/
theorem c1_pharma_no_image :
    PharmaQuery.renderVisualization chartAViz = PharmaQuery.VizContent.noContent ∧
    PharmaQuery.renderVisualization chartAViz ≠
      PharmaQuery.VizContent.image "http://x/a.png" "Chart A" := by decide

/-- C1 (amended): under the AMINA render pipeline the claim holds as
stated — rendering `chartAResult` produces exactly one visualization
block, whose image has alt text "Chart A"; under the PharmaQuery variant
the image is produced only when the entry additionally carries
`type:"chart"`. -/
theorem c1_one_viz_block_alt_chartA :
    (AMINA.renderQueryResults chartAResult).filter AMINA.isVizBlock =
      [AMINA.Block.visualization "Chart A" "http://x/a.png" "Chart A"] ∧
    PharmaQuery.renderVisualization { chartAViz with type := some "chart" } =
      PharmaQuery.VizContent.image "http://x/a.png" "Chart A" := by decide

/-- C2: `validatePassword` accepts exactly the passwords with length ≥ 8,
an uppercase letter, a lowercase letter, a digit and a symbol of the
defined punctuation set, and an invalid password's message is that of the
first violated rule in the fixed order length / uppercase / lowercase /
digit / symbol. -/
theorem c2_password_policy (p : String) :
    ((LoginManager.validatePassword p).valid = true ↔
      (8 ≤ p.length ∧ LoginManager.hasUppercase p = true ∧
        LoginManager.hasLowercase p = true ∧ LoginManager.hasNumber p = true ∧
        LoginManager.hasSpecial p = true)) ∧
    (¬ 8 ≤ p.length →
      (LoginManager.validatePassword p).message =
        "Password must be at least 8 characters long") ∧
    (8 ≤ p.length → ¬ LoginManager.hasUppercase p = true →
      (LoginManager.validatePassword p).message =
        "Password must contain at least one uppercase letter") ∧
    (8 ≤ p.length → LoginManager.hasUppercase p = true →
      ¬ LoginManager.hasLowercase p = true →
      (LoginManager.validatePassword p).message =
        "Password must contain at least one lowercase letter") ∧
    (8 ≤ p.length → LoginManager.hasUppercase p = true →
      LoginManager.hasLowercase p = true → ¬ LoginManager.hasNumber p = true →
      (LoginManager.validatePassword p).message =
        "Password must contain at least one number") ∧
    (8 ≤ p.length → LoginManager.hasUppercase p = true →
      LoginManager.hasLowercase p = true → LoginManager.hasNumber p = true →
      ¬ LoginManager.hasSpecial p = true →
      (LoginManager.validatePassword p).message =
        "Password must contain at least one special character (!@#$%^&*)") := by
  by_cases h1 : 8 ≤ p.length <;>
    by_cases h2 : LoginManager.hasUppercase p = true <;>
      by_cases h3 : LoginManager.hasLowercase p = true <;>
        by_cases h4 : LoginManager.hasNumber p = true <;>
          by_cases h5 : LoginManager.hasSpecial p = true <;>
            simp_all [LoginManager.validatePassword]

/-- C2 (witness): the three examples of the claim, obtained from
`c2_password_policy`. -/
theorem c2_password_policy_examples :
    (LoginManager.validatePassword "short").message =
      "Password must be at least 8 characters long" ∧
    (LoginManager.validatePassword "longenough").message =
      "Password must contain at least one uppercase letter" ∧
    (LoginManager.validatePassword "LONGENOUGH1!").message =
      "Password must contain at least one lowercase letter" :=
  ⟨(c2_password_policy "short").2.1 (by decide),
   (c2_password_policy "longenough").2.2.1 (by decide) (by decide),
   (c2_password_policy "LONGENOUGH1!").2.2.2.1 (by decide) (by decide) (by decide)⟩

/-- C3 (counterexample): identifiers are built from `Date.now()`
(millisecond resolution) and the loop index, so two renders that observe
the same clock value — here both observe 100 — produce the same
identifier `viz-100-0`, a collision across repeated renders. -/
theorem c3_same_millisecond_collision :
    ¬ (PharmaQuery.vizIdsFor (fun _ => 100) [chartAViz] ++
        PharmaQuery.vizIdsFor (fun _ => 100) [chartAViz]).Nodup := by decide

/-- C3 (amended): within a single render the generated container
identifiers are pairwise distinct, and two generated identifiers coincide
exactly when both the observed `Date.now()` value and the index coincide —
so across repeated renders distinctness holds only when the observed
millisecond timestamps differ. -/
theorem c3_vizId_distinctness :
    (∀ (now : Nat → Nat) (vs : List Visualization),
      (PharmaQuery.vizIdsFor now vs).Nodup) ∧
    (∀ t i u j : Nat,
      PharmaQuery.vizId t i = PharmaQuery.vizId u j ↔ (t = u ∧ i = j)) := by
  constructor
  · intro now vs
    exact List.Nodup.map_on
      (fun x _ y _ h => (vizId_inj h).2) (List.nodup_range _)
  · intro t i u j
    constructor
    · exact vizId_inj
    · rintro ⟨rfl, rfl⟩; rfl

/-- C4 (counterexample): a 403 response whose body carries a truthy
`auth_error` flag is a non-2xx authentication-flagged response, yet
`API.request` neither invokes the auth-modal hook (even though one is
registered) nor fails with the authentication error — it falls through to
the generic failure with the server's message, because the code gates the
authentication branch on `response.status === 401`. -/
theorem c4_flagged_403_is_generic_failure :
    API.request true (API.FetchResult.response 403 ⟨true, some "Forbidden"⟩) =
      (API.RequestResult.requestFailed "Forbidden", false) ∧
    (API.request true (API.FetchResult.response 403 ⟨true, some "Forbidden"⟩)).1 ≠
      API.RequestResult.authenticationRequired := by decide

/-- C4 (amended): whenever the response status is exactly 401 and the body
carries the truthy `auth_error` flag, `API.request` invokes the registered
show-auth-modal hook if one is present and fails with the
authentication-required error, which is distinct from every generic
request failure. -/
theorem c4_auth_error_interception (hasAuthManager : Bool) (body : API.Body)
    (hauth : body.auth_error = true) :
    API.request hasAuthManager (API.FetchResult.response 401 body) =
      (API.RequestResult.authenticationRequired, hasAuthManager) ∧
    (∀ m : String,
      API.RequestResult.authenticationRequired ≠ API.RequestResult.requestFailed m) := by
  refine ⟨?_, fun m h => by cases h⟩
  simp [API.request, API.responseOk, hauth]

/-- C4 (witness): `c4_auth_error_interception` at a concrete 401 body. -/
theorem c4_auth_error_interception_at_401 :
    API.request true (API.FetchResult.response 401 ⟨true, none⟩) =
      (API.RequestResult.authenticationRequired, true) :=
  (c4_auth_error_interception true ⟨true, none⟩ rfl).1

/-- C5: when a previous successful result is cached and a validated query
execution fails (declared failure or transport error), the cached result
and the dataset cache are unchanged and only the results container's
visibility is turned off. -/
theorem c5_failed_query_preserves_cache (st : AMINA.AppState) (raw : String)
    (outcome : AMINA.QueryOutcome) (r : QueryResult)
    (hc : st.currentQuery = some r)
    (hf : outcome.isFailure = true)
    (hq : jsTrim raw ≠ "")
    (hd : st.datasets ≠ []) :
    (AMINA.executeQuery st raw outcome).1.currentQuery = some r ∧
    (AMINA.executeQuery st raw outcome).1.resultsVisible = false ∧
    (AMINA.executeQuery st raw outcome).1.datasets = st.datasets := by
  have hlen : (st.datasets.length == 0) = false := by
    simp [List.length_eq_zero, hd]
  have hq' : (jsTrim raw == "") = false := by simp [hq]
  cases outcome with
  | success result => simp [AMINA.QueryOutcome.isFailure] at hf
  | declaredFailure e => simp [AMINA.executeQuery, hq', hlen, hc]
  | transportError m => simp [AMINA.executeQuery, hq', hlen, hc]

/-- C5 (witness): `c5_failed_query_preserves_cache` at a concrete state
with a cached result and a declared query failure. -/
theorem c5_failed_query_preserves_cache_concrete :
    (AMINA.executeQuery ⟨[⟨"d1", "A"⟩], some chartAResult, true⟩ "q"
        (AMINA.QueryOutcome.declaredFailure "boom")).1.currentQuery =
      some chartAResult ∧
    (AMINA.executeQuery ⟨[⟨"d1", "A"⟩], some chartAResult, true⟩ "q"
        (AMINA.QueryOutcome.declaredFailure "boom")).1.resultsVisible = false ∧
    (AMINA.executeQuery ⟨[⟨"d1", "A"⟩], some chartAResult, true⟩ "q"
        (AMINA.QueryOutcome.declaredFailure "boom")).1.datasets =
      (⟨[⟨"d1", "A"⟩], some chartAResult, true⟩ : AMINA.AppState).datasets :=
  c5_failed_query_preserves_cache _ "q" _ chartAResult rfl rfl (by decide)
    (by decide)

/-- C6: a multi-file batch is processed file by file in order and never
aborts: whatever each file's upload response is, `handleFileSelect`
completes normally with one outcome per file, in the batch's order — a
failing file cannot prevent the submission of the files after it. -/
theorem c6_upload_batch_isolation (files : List String)
    (respOf : String → AMINA.UploadResponse) :
    ∃ results, AMINA.handleFileSelect files respOf = Except.ok results ∧
      results.map AMINA.UploadResult.file = files := by
  induction files with
  | nil => exact ⟨[], rfl, rfl⟩
  | cons f fs ih =>
      obtain ⟨rs, hrs, hmap⟩ := ih
      obtain ⟨r, hr, hrf⟩ :
          ∃ r, AMINA.uploadFile f (respOf f) = Except.ok r ∧
            r.file = f := by
        cases respOf f with
        | success => exact ⟨AMINA.UploadResult.succeeded f, rfl, rfl⟩
        | declaredFailure e =>
            exact ⟨AMINA.UploadResult.failed f
              ("Failed to upload " ++ f ++ ": " ++ e), rfl, rfl⟩
        | transportError m =>
            exact ⟨AMINA.UploadResult.failed f
              ("Failed to upload " ++ f ++ ": " ++ m), rfl, rfl⟩
      refine ⟨r :: rs, ?_, by simp [hmap, hrf]⟩
      simp only [AMINA.handleFileSelect] at hrs ⊢
      rw [List.mapM_cons, hr, hrs]
      rfl

/-- C7: rendering the table `{columns:["a","b"], data:[{a:1,b:null}]}`
yields the rows `[["1", ""]]` — the second cell of the first row is the
empty string — and in general a `null` or missing cell value renders as
the empty cell, never as the text "null". -/
theorem c7_null_cells_render_empty :
    AMINA.renderDataTable c7Table =
      AMINA.TableHtml.table ["a", "b"] [["1", ""]] ∧
    (∀ (row : Row) (col : String),
      jsLookup row col = none ∨ jsLookup row col = some JsonValue.jnull →
      AMINA.renderCell row col = "") := by
  refine ⟨by decide, ?_⟩
  intro row col h
  rcases h with h | h <;> simp [AMINA.renderCell, h, AMINA.displayValue]

/-- C7 (witness): `c7_null_cells_render_empty` at a row missing the
looked-up column. -/
theorem c7_missing_cell_concrete :
    AMINA.renderCell [("a", JsonValue.jnum 1)] "b" = "" :=
  c7_null_cells_render_empty.2 [("a", JsonValue.jnum 1)] "b" (Or.inl rfl)

/-- A find?-through-rename helper: renaming dataset `id` to `n` on the
server turns the found entry's name into `n` and touches nothing else the
search depends on. -/
theorem find?_renameDataset (server : List Dataset) (id n : String)
    (sd : Dataset)
    (h : List.find? (fun x => x.id == id) server = some sd) :
    List.find? (fun x => x.id == id) (Server.renameDataset server id n) =
      some { sd with name := n } := by
  induction server with
  | nil => simp at h
  | cons a t ih =>
      by_cases ha : a.id = id
      · rw [List.find?_cons_of_pos _ (by simp [ha])] at h
        have : sd = a := by injection h with h'; exact h'.symm
        subst this
        simp only [Server.renameDataset, List.map_cons]
        rw [if_pos (by simp [ha]), List.find?_cons_of_pos _ (by simp [ha])]
      · rw [List.find?_cons_of_neg _ (by simp [ha])] at h
        simp only [Server.renameDataset, List.map_cons]
        rw [if_neg (by simp [ha]), List.find?_cons_of_neg _ (by simp [ha])]
        exact ih h

/-- C8: for a dataset found in the local cache, renaming it to its current
name is a no-op — no rename request is issued and both the cache and the
server state are unchanged, in both rename entry points; renaming it to a
different (non-empty, trimmed) name `n` issues the request, and the
reloaded dataset list shows name `n` for that dataset. -/
theorem c8_rename_noop_and_roundtrip (client server : List Dataset)
    (id : String) (d : Dataset)
    (hfind : List.find? (fun x => x.id == id) client = some d) :
    (AMINA.renameDataset client server id (some d.name) =
        some (client, server, false) ∧
      AMINA.renameSharedDataset true client server id (some d.name) =
        (client, server, false)) ∧
    (∀ (sd : Dataset) (n : String),
      List.find? (fun x => x.id == id) server = some sd →
      n ≠ "" → n ≠ d.name → jsTrim n = n →
      AMINA.renameDataset client server id (some n) =
        some (Server.listDatasets (Server.renameDataset server id n),
          Server.renameDataset server id n, true) ∧
      AMINA.renameSharedDataset true client server id (some n) =
        (Server.listDatasets (Server.renameDataset server id n),
          Server.renameDataset server id n, true) ∧
      List.find? (fun x => x.id == id)
          (Server.listDatasets (Server.renameDataset server id n)) =
        some { sd with name := n }) := by
  constructor
  · constructor
    · simp [AMINA.renameDataset, hfind]
    · simp [AMINA.renameSharedDataset, hfind]
  · intro sd n hsfind hne hnd htrim
    refine ⟨?_, ?_, ?_⟩
    · simp [AMINA.renameDataset, hfind, hne, hnd]
    · simp [AMINA.renameSharedDataset, hfind, hne, hnd, htrim]
    · exact find?_renameDataset server id n sd hsfind

/-- C8 (witness): `c8_rename_noop_and_roundtrip` on a one-dataset cache:
renaming "Old" to "Old" is a no-op; renaming to "New" then reloading shows
"New". -/
theorem c8_rename_concrete :
    AMINA.renameDataset [⟨"d1", "Old"⟩] [⟨"d1", "Old"⟩] "d1" (some "Old") =
      some ([⟨"d1", "Old"⟩], [⟨"d1", "Old"⟩], false) ∧
    List.find? (fun x => x.id == "d1")
        (Server.listDatasets
          (Server.renameDataset [⟨"d1", "Old"⟩] "d1" "New")) =
      some ⟨"d1", "New"⟩ :=
  ⟨(c8_rename_noop_and_roundtrip [⟨"d1", "Old"⟩] [⟨"d1", "Old"⟩] "d1"
      ⟨"d1", "Old"⟩ (by decide)).1.1,
   ((c8_rename_noop_and_roundtrip [⟨"d1", "Old"⟩] [⟨"d1", "Old"⟩] "d1"
      ⟨"d1", "Old"⟩ (by decide)).2 ⟨"d1", "Old"⟩ "New" (by decide) (by decide)
      (by decide) (by decide)).2.2⟩

/-- C9: `UI.validateForm` on a form identifier that resolves to no form
returns the bare boolean `false` — not an `{isValid, errors}` record — and
performs no field validation or error annotation, whatever the rules
mapping is. -/
theorem c9_validateForm_missing_form (rules : List (String × UI.FieldRules)) :
    UI.validateForm none rules = (UI.FormValidationResult.boolResult false, []) :=
  rfl

/-- C10: a `data_tables` entry with an absent or empty `data` sequence, or
an absent `columns` field, renders as the "No data to display" placeholder
— which carries no header row — rather than as a table. -/
theorem c10_empty_table_placeholder (t : DataTable)
    (h : t.data = none ∨ t.data = some [] ∨ t.columns = none) :
    AMINA.renderDataTable t = AMINA.TableHtml.noData "No data to display" := by
  obtain ⟨title, cols, data⟩ := t
  rcases h with h | h | h
  · simp only at h
    subst h
    simp [AMINA.renderDataTable]
  · simp only at h
    subst h
    cases cols <;> simp [AMINA.renderDataTable]
  · simp only at h
    subst h
    cases data <;> simp [AMINA.renderDataTable]

/-- C10 (witness): `c10_empty_table_placeholder` at a table with columns
but an empty data sequence. -/
theorem c10_empty_table_placeholder_concrete :
    AMINA.renderDataTable ⟨"T", some ["a"], some []⟩ =
      AMINA.TableHtml.noData "No data to display" :=
  c10_empty_table_placeholder ⟨"T", some ["a"], some []⟩ (Or.inr (Or.inl rfl))
